import Mathlib

/-!
Verification of the TCP relay `tcp_proxy.py`.

The script has three functions: `forward` (one direction of byte copying
between two sockets), `handle_client` (dials the upstream, starts two
`forward` threads, joins them; on a dial error closes the client socket),
and `main` (bind, listen, accept loop, KeyboardInterrupt shutdown).

We embed each as a pure function over explicit event traces: a forward
direction is driven by the list of results its `recv`/`sendall` calls
produce, a session is sugar for a dial result plus the two directions'
traces, and the shutdown path acts on the set of still-running threads.
-/

namespace TcpProxy

abbrev Byte := Nat

abbrev Chunk := List Byte

/-- One iteration of the forward loop as seen from its two sockets:
`recv data sendOk` means `source.recv(4096)` returned `data` (the empty
chunk is how a TCP socket signals end-of-stream) and, when `data` is
nonempty, `destination.sendall(data)` either succeeded (`sendOk = true`)
or raised; `recvRaise` means `source.recv` itself raised. -/
inductive SockEvent where
  | recv (data : Chunk) (sendOk : Bool)
  | recvRaise
deriving DecidableEq, Repr

/-- Why the `while True` loop of `forward` stopped: a clean `break` on the
empty read, an exception caught by the `except Exception` clause, or not
stopped at all — the trace ran out with `recv` still blocked. -/
inductive Outcome where
  | eof
  | errCaught
  | blocked
deriving DecidableEq, Repr

/-- Embeds the `while True` loop body of `forward` (tcp_proxy.py lines
15-19): `data = source.recv(4096)`; `if not data: break`;
`destination.sendall(data)`. Returns the chunks fully handed to `sendall`
in order, and why the loop ended. -/
def forwardLoop : List SockEvent → List Chunk × Outcome
  | [] => ([], Outcome.blocked)
  | SockEvent.recvRaise :: _ => ([], Outcome.errCaught)
  | SockEvent.recv [] _ :: _ => ([], Outcome.eof)
  | SockEvent.recv (b :: bs) true :: rest =>
      let r := forwardLoop rest
      ((b :: bs) :: r.1, r.2)
  | SockEvent.recv (_ :: _) false :: _ => ([], Outcome.errCaught)

/-- Everything observable about one run of `forward`. -/
structure ForwardResult where
  written : List Chunk
  outcome : Outcome
  closedSource : Bool
  closedDest : Bool
  raised : Bool
  reports : List Outcome
deriving DecidableEq, Repr

/-- Embeds `forward(source, destination)` (tcp_proxy.py lines 12-24): the
loop runs inside `try`; the `except Exception` clause is a bare `pass`, so
no exception escapes (`raised := false`) and the error is discarded; the
function has no return statement, callback or channel, so nothing about
the outcome is communicated to any other component (`reports := []`); the
`finally` clause closes BOTH `source` and `destination`, but only runs once
the loop actually ends — a `recv` still blocked never reaches it. -/
def forward (events : List SockEvent) : ForwardResult :=
  let r := forwardLoop events
  if r.2 = Outcome.blocked then
    { written := r.1
      outcome := r.2
      closedSource := false
      closedDest := false
      raised := false
      reports := [] }
  else
    { written := r.1
      outcome := r.2
      closedSource := true
      closedDest := true
      raised := false
      reports := [] }

/-- The two forward directions of one client/upstream socket pair:
`c2r` reads the client socket and writes the remote socket, `r2c` the
reverse. -/
structure PairResult where
  c2r : ForwardResult
  r2c : ForwardResult
deriving DecidableEq, Repr

/-- Embeds the two concurrent `forward` threads started and joined by
`handle_client` (tcp_proxy.py lines 33-40) on one established pair: each
direction runs on its own event trace, the oracle for what each of its
`recv`/`sendall` calls returned. A `close()` performed by the other thread
does NOT interrupt a `recv` already blocked in the syscall — on
CPython/Linux the in-progress call keeps the open file description alive,
and the script never calls `shutdown()` — so a forward whose trace ends
while blocked simply stays blocked regardless of what the other direction
does; a call issued after the socket objects were closed appears in the
trace as a raising event. -/
def pairRun (c2rEvents r2cEvents : List SockEvent) : PairResult :=
  { c2r := forward c2rEvents
    r2c := forward r2cEvents }

/-- How many times the client socket is closed across the pair: it is the
source of the client-to-remote forward and the destination of the
remote-to-client forward. -/
def PairResult.clientCloses (p : PairResult) : Nat :=
  (if p.c2r.closedSource then 1 else 0) + (if p.r2c.closedDest then 1 else 0)

/-- How many times the remote (upstream) socket is closed across the pair. -/
def PairResult.remoteCloses (p : PairResult) : Nat :=
  (if p.c2r.closedDest then 1 else 0) + (if p.r2c.closedSource then 1 else 0)

/-- Whether the client TCP connection is actually terminated: some
`close()` must have been called on the socket AND the forward reading it
(`c2r`) must have returned from its loop. A `close()` from the other
thread while `c2r` sits blocked in `recv` does not take effect, because on
Linux the in-progress `recv` keeps the open file description alive — no
FIN is sent — and tcp_proxy.py never calls `shutdown()`, the call that
would interrupt the blocked reader. -/
def PairResult.clientConnClosed (p : PairResult) : Bool :=
  if p.c2r.outcome = Outcome.blocked then false
  else p.c2r.closedSource || p.r2c.closedDest

/-- Same as `clientConnClosed` for the remote (upstream) TCP connection,
whose blocked reader is the `r2c` forward. -/
def PairResult.remoteConnClosed (p : PairResult) : Bool :=
  if p.r2c.outcome = Outcome.blocked then false
  else p.r2c.closedSource || p.c2r.closedDest

/-- The upstream socket as configured by `handle_client`. -/
structure RemoteSocket where
  timeout : Option Nat
deriving DecidableEq, Repr

/-- Embeds `socket.socket(socket.AF_INET, socket.SOCK_STREAM)` at
tcp_proxy.py line 29: neither `settimeout` nor `setdefaulttimeout` is
called anywhere in the script, so the fresh socket keeps the library
default timeout `None` — `connect` blocks with no application-level bound. -/
def newRemoteSocket : RemoteSocket := { timeout := none }

/-- One accepted client as `handle_client` experiences it: whether the
upstream `connect` succeeds, and the two directions' socket traces. -/
structure Session where
  dialOk : Bool
  c2rEvents : List SockEvent
  r2cEvents : List SockEvent
deriving DecidableEq, Repr

/-- Everything observable about one run of `handle_client`. -/
structure HandleResult where
  remoteCreated : Bool
  crashedListener : Bool
  clientCloses : Nat
  remoteCloses : Nat
  toRemote : List Chunk
  toClient : List Chunk
deriving DecidableEq, Repr

/-- Embeds `handle_client(client_socket)` (tcp_proxy.py lines 26-43): the
remote socket object is created first; then `connect` either succeeds — the
two forward threads are started and joined — or raises, in which case the
`except` clause prints the error and closes ONLY `client_socket` (the
already-created remote socket object is never closed on this path). The
handler runs on its own thread spawned by the accept loop, so nothing it
raises can reach the accept loop (`crashedListener := false` on every
path). -/
def handle_client (s : Session) : HandleResult :=
  if s.dialOk then
    let p := pairRun s.c2rEvents s.r2cEvents
    { remoteCreated := true
      crashedListener := false
      clientCloses := p.clientCloses
      remoteCloses := p.remoteCloses
      toRemote := p.c2r.written
      toClient := p.r2c.written }
  else
    { remoteCreated := true
      crashedListener := false
      clientCloses := 1
      remoteCloses := 0
      toRemote := []
      toClient := [] }

/-- Embeds the accept loop of `main` (tcp_proxy.py lines 56-60): each
accepted client is handed to a fresh `handle_client` thread and the loop
immediately accepts the next one, so the sessions are served independently,
each by its own `handle_client` run. -/
def serveAll (ss : List Session) : List HandleResult :=
  ss.map handle_client

/-- The process at the moment the interrupt signal arrives: the forward and
handler threads still running, and whether the listening socket is open. -/
structure ShutdownState where
  liveThreads : List Nat
  serverOpen : Bool
deriving DecidableEq, Repr

/-- Embeds the KeyboardInterrupt path of `main` (tcp_proxy.py lines 61-64):
the handler prints a message and the `finally` clause closes the listening
socket; no connection pair and no thread is touched. -/
def shutdownHandler (s : ShutdownState) : ShutdownState :=
  { s with serverOpen := false }

/-- Every thread in tcp_proxy.py is created with the default
`daemon = False`, so the interpreter exits only once every handler and
forward thread has finished. -/
def processCanExit (s : ShutdownState) : Bool :=
  s.liveThreads.isEmpty

/-- `main` returns normally after catching KeyboardInterrupt, so when the
process does exit its code is 0. -/
def exitCodeAfterShutdown : Nat := 0

/-- What startup leads to: the process died with an exit code, or reached
the accept loop. -/
inductive MainOutcome where
  | exited (code : Nat)
  | serving
deriving DecidableEq, Repr

/-- Embeds the startup of `main` (tcp_proxy.py lines 47-50): socket
creation, `setsockopt`, `bind` and `listen` run before and outside the
`try` block, so an OSError from `bind` is uncaught — the interpreter prints
the traceback and exits with code 1. -/
def mainStartup (bindOk : Bool) : MainOutcome :=
  if bindOk then MainOutcome.serving else MainOutcome.exited 1

/-- `main` calls `bind` exactly once; no retry loop exists in the script. -/
def bindAttempts : Nat := 1

/-- The trace of a peer that delivers the given chunks and then closes
cleanly, every `sendall` succeeding. -/
def cleanStream (chunks : List Chunk) : List SockEvent :=
  chunks.map (fun c => SockEvent.recv c true) ++ [SockEvent.recv [] true]

theorem forwardLoop_clean (chunks : List Chunk) (h : ∀ c ∈ chunks, c ≠ []) :
    forwardLoop (cleanStream chunks) = (chunks, Outcome.eof) := by
  induction chunks with
  | nil => rfl
  | cons c cs ih =>
      have hc : c ≠ [] := h c (List.mem_cons_self c cs)
      have hcs : ∀ x ∈ cs, x ≠ [] := fun x hx => h x (List.mem_cons_of_mem c hx)
      cases c with
      | nil => exact absurd rfl hc
      | cons b bs =>
          have hstep : cleanStream ((b :: bs) :: cs)
              = SockEvent.recv (b :: bs) true :: cleanStream cs := by
            simp [cleanStream]
          rw [hstep, forwardLoop, ih hcs]

theorem forward_written (e : List SockEvent) :
    (forward e).written = (forwardLoop e).1 := by
  unfold forward
  by_cases h : (forwardLoop e).2 = Outcome.blocked <;> simp [h]

theorem forward_outcome (e : List SockEvent) :
    (forward e).outcome = (forwardLoop e).2 := by
  unfold forward
  by_cases h : (forwardLoop e).2 = Outcome.blocked <;> simp [h]

theorem forward_closed_of_terminated (e : List SockEvent)
    (h : (forward e).outcome ≠ Outcome.blocked) :
    (forward e).closedSource = true ∧ (forward e).closedDest = true := by
  rw [forward_outcome] at h
  unfold forward
  simp [h]

theorem pairRun_both_terminated (ce re : List SockEvent)
    (hc : (forward ce).outcome ≠ Outcome.blocked)
    (hr : (forward re).outcome ≠ Outcome.blocked) :
    (pairRun ce re).clientConnClosed = true ∧
    (pairRun ce re).remoteConnClosed = true ∧
    (pairRun ce re).clientCloses = 2 ∧
    (pairRun ce re).remoteCloses = 2 := by
  obtain ⟨c1, c2⟩ := forward_closed_of_terminated ce hc
  obtain ⟨r1, r2⟩ := forward_closed_of_terminated re hr
  unfold PairResult.clientConnClosed PairResult.remoteConnClosed
    PairResult.clientCloses PairResult.remoteCloses pairRun
  simp [hc, hr, c1, c2, r1, r2]

/-- Claim C1: for every sequence of byte chunks delivered by the source
socket (each `recv` that returns data returns a nonempty chunk; the stream
ends with a clean close; every `sendall` succeeds), the forward of each
direction of a connection pair writes to its destination exactly those
chunks in order — in particular exactly their concatenation, with no loss,
duplication or transformation. -/
theorem c1_relay_exact (cs rs : List Chunk)
    (hc : ∀ c ∈ cs, c ≠ []) (hr : ∀ c ∈ rs, c ≠ []) :
    (pairRun (cleanStream cs) (cleanStream rs)).c2r.written = cs ∧
    (pairRun (cleanStream cs) (cleanStream rs)).r2c.written = rs ∧
    (pairRun (cleanStream cs) (cleanStream rs)).c2r.written.flatten
      = cs.flatten ∧
    (pairRun (cleanStream cs) (cleanStream rs)).r2c.written.flatten
      = rs.flatten := by
  have hcs := forwardLoop_clean cs hc
  have hrs := forwardLoop_clean rs hr
  have e1 : (pairRun (cleanStream cs) (cleanStream rs)).c2r.written = cs := by
    show (forward (cleanStream cs)).written = cs
    rw [forward_written, hcs]
  have e2 : (pairRun (cleanStream cs) (cleanStream rs)).r2c.written = rs := by
    show (forward (cleanStream rs)).written = rs
    rw [forward_written, hrs]
  exact ⟨e1, e2, by rw [e1], by rw [e2]⟩

/-- Witness for C1 at the concrete session where the client sends the
chunks [1, 2] then [3] and the upstream sends [4, 5]. -/
theorem c1_relay_exact_witness :
    (pairRun (cleanStream [[1, 2], [3]]) (cleanStream [[4, 5]])).c2r.written
      = [[1, 2], [3]] ∧
    (pairRun (cleanStream [[1, 2], [3]]) (cleanStream [[4, 5]])).r2c.written
      = [[4, 5]] ∧
    (pairRun (cleanStream [[1, 2], [3]]) (cleanStream [[4, 5]])).c2r.written.flatten
      = [1, 2, 3] ∧
    (pairRun (cleanStream [[1, 2], [3]]) (cleanStream [[4, 5]])).r2c.written.flatten
      = [4, 5] := by
  have h := c1_relay_exact [[1, 2], [3]] [[4, 5]] (by decide) (by decide)
  simpa using h

/-- Claim C2 counterexample: in the zero-byte session where the client
closes immediately without sending and the upstream peer stays silent, the
client-side connection is closed (its forward saw EOF and ran its
`finally`), but the remote-to-client forward stays blocked in `recv`
forever: its `finally` never runs, the upstream connection is never
actually terminated — a `close()` of the socket object by the other
thread sends no FIN while the `recv` is in progress and `shutdown()` is
never called — and the empty session hangs half-open instead of the other
side closing within bounded time. -/
theorem c2_counterexample :
    (pairRun [SockEvent.recv [] true] []).clientConnClosed = true ∧
    (pairRun [SockEvent.recv [] true] []).remoteConnClosed = false ∧
    (pairRun [SockEvent.recv [] true] []).r2c.outcome = Outcome.blocked ∧
    (pairRun [SockEvent.recv [] true] []).r2c.closedSource = false := by
  decide

/-- Claim C2 (amended): closing one Connection makes its Forwarder call
`close()` on both socket objects, but that does not bound the other side:
the pair is fully closed — both connections actually terminated, no
half-open relay state left — exactly when both Forwarders' own streams
terminate; a Forwarder still blocked in `recv` keeps its connection alive
indefinitely, since a cross-thread `close()` does not interrupt a blocked
`recv` and the script never calls `shutdown()`. -/
theorem c2_amended (ce re : List SockEvent)
    (hc : (forward ce).outcome ≠ Outcome.blocked)
    (hr : (forward re).outcome ≠ Outcome.blocked) :
    (pairRun ce re).clientConnClosed = true ∧
    (pairRun ce re).remoteConnClosed = true := by
  obtain ⟨h1, h2, _, _⟩ := pairRun_both_terminated ce re hc hr
  exact ⟨h1, h2⟩

/-- Witness for the amended C2 at the session where both peers close
cleanly after sending nothing: both connections are actually terminated. -/
theorem c2_amended_witness :
    ((forward [SockEvent.recv [] true]).outcome ≠ Outcome.blocked ∧
     (forward [SockEvent.recv [] true]).outcome ≠ Outcome.blocked) ∧
    (pairRun [SockEvent.recv [] true]
        [SockEvent.recv [] true]).clientConnClosed = true ∧
    (pairRun [SockEvent.recv [] true]
        [SockEvent.recv [] true]).remoteConnClosed = true := by
  refine ⟨⟨by decide, by decide⟩, ?_⟩
  exact c2_amended [SockEvent.recv [] true] [SockEvent.recv [] true]
    (by decide) (by decide)

/-- Claim C3 counterexample: on the concrete zero-byte session where both
peers close immediately, the client-to-remote forward itself closes its
destination (the `finally` clause of `forward` closes both sockets), and
each socket of the pair is closed twice — once by each forward — not
exactly once, and not by any central close point. -/
theorem c3_counterexample :
    (forward [SockEvent.recv [] true]).closedDest = true ∧
    (pairRun [SockEvent.recv [] true]
        [SockEvent.recv [] true]).clientCloses = 2 ∧
    (pairRun [SockEvent.recv [] true]
        [SockEvent.recv [] true]).remoteCloses = 2 := by
  decide

/-- Claim C3 (amended): each forward closes both its source and its
destination socket object in its `finally` clause, so there is no central
connection-pair close point; on every session where both directions
terminate, each of the pair's two sockets receives exactly two `close()`
calls — once per forward, relying on the idempotence of socket close —
rather than exactly once. -/
theorem c3_amended (ce re : List SockEvent)
    (hc : (forward ce).outcome ≠ Outcome.blocked)
    (hr : (forward re).outcome ≠ Outcome.blocked) :
    (pairRun ce re).clientCloses = 2 ∧ (pairRun ce re).remoteCloses = 2 := by
  obtain ⟨_, _, h3, h4⟩ := pairRun_both_terminated ce re hc hr
  exact ⟨h3, h4⟩

/-- Witness for the amended C3 at a session where the client sends one
chunk and closes and the upstream closes immediately. -/
theorem c3_amended_witness :
    ((forward (cleanStream [[7]])).outcome ≠ Outcome.blocked ∧
     (forward (cleanStream [])).outcome ≠ Outcome.blocked) ∧
    (pairRun (cleanStream [[7]]) (cleanStream [])).clientCloses = 2 ∧
    (pairRun (cleanStream [[7]]) (cleanStream [])).remoteCloses = 2 := by
  refine ⟨⟨by decide, by decide⟩, ?_⟩
  exact c3_amended (cleanStream [[7]]) (cleanStream []) (by decide) (by decide)

/-- Claim C4: an accepted connection whose upstream dial fails has its
inbound socket closed at once, the failure never crashes the accept loop,
and the loop goes on to serve every subsequent session exactly as
`handle_client` serves it in isolation. -/
theorem c4_dial_failure_isolated (s : Session) (ss : List Session)
    (h : s.dialOk = false) :
    (handle_client s).clientCloses = 1 ∧
    (handle_client s).crashedListener = false ∧
    serveAll (s :: ss) = handle_client s :: ss.map handle_client := by
  refine ⟨?_, ?_, ?_⟩
  · unfold handle_client
    rw [h]
    simp
  · unfold handle_client
    rw [h]
    simp
  · simp [serveAll]

/-- Witness for C4: a failed dial followed by a successful echo session;
the second client is still served and receives its bytes. -/
theorem c4_dial_failure_isolated_witness :
    (⟨false, [], []⟩ : Session).dialOk = false ∧
    (handle_client ⟨false, [], []⟩).clientCloses = 1 ∧
    (handle_client ⟨false, [], []⟩).crashedListener = false ∧
    serveAll [⟨false, [], []⟩, ⟨true, cleanStream [[9]], cleanStream [[9]]⟩]
      = handle_client ⟨false, [], []⟩ ::
        [⟨true, cleanStream [[9]], cleanStream [[9]]⟩].map handle_client := by
  refine ⟨by decide, ?_⟩
  exact c4_dial_failure_isolated ⟨false, [], []⟩
    [⟨true, cleanStream [[9]], cleanStream [[9]]⟩] (by decide)

/-- Claim C5 counterexample: take the interrupt arriving while one pair
(thread 0) is still live; the complete shutdown path of `main` — print and
close the listening socket — leaves that pair live, and the process cannot
exit, because `main` contains no grace-period wait and no forced close of
live pairs, and all forward threads are non-daemon. -/
theorem c5_counterexample :
    (shutdownHandler { liveThreads := [0], serverOpen := true }).liveThreads
      = [0] ∧
    processCanExit
      (shutdownHandler { liveThreads := [0], serverOpen := true }) = false := by
  decide

/-- Claim C5 (amended): on the shutdown signal the relay does stop
accepting — the listening socket is closed — but it waits no grace period
and force-closes nothing: the set of live threads is untouched, and the
process (whose eventual exit code is 0) can exit exactly when every
forward thread has already finished on its own. -/
theorem c5_amended (s : ShutdownState) :
    (shutdownHandler s).serverOpen = false ∧
    (shutdownHandler s).liveThreads = s.liveThreads ∧
    (processCanExit (shutdownHandler s) = true ↔ s.liveThreads = []) ∧
    exitCodeAfterShutdown = 0 := by
  refine ⟨rfl, rfl, ?_, rfl⟩
  simp [processCanExit, shutdownHandler, List.isEmpty_iff]

/-- Claim C6: if binding the local listen endpoint fails at startup, the
process exits immediately with the non-zero code 1 (the uncaught OSError
traceback is the startup error report), and `bind` is attempted exactly
once — never retried. -/
theorem c6_bind_failure_fatal :
    mainStartup false = MainOutcome.exited 1 ∧
    (1 : Nat) ≠ 0 ∧
    bindAttempts = 1 := by
  decide

/-- Claim C7 counterexample: a forward that terminates with a read error
reports nothing — its list of emitted reports is empty, not of length one —
because `forward` swallows every exception with a bare `pass`, returns no
value and calls nothing, so no outcome ever reaches the pair or any
supervisor. -/
theorem c7_counterexample :
    (forward [SockEvent.recvRaise]).outcome = Outcome.errCaught ∧
    (forward [SockEvent.recvRaise]).reports = [] ∧
    (forward [SockEvent.recvRaise]).reports.length ≠ 1 := by
  decide

/-- Claim C7 (amended): on termination a forward reports nothing at all —
no outcome is recorded for the pair or surfaced to any supervisor — and no
forward failure ever escapes as an exception, so nothing can reach the
accept loop as a process-level error; only the non-propagation half of the
original claim holds. -/
theorem c7_amended (e : List SockEvent) :
    (forward e).reports = [] ∧ (forward e).raised = false := by
  unfold forward
  by_cases h : (forwardLoop e).2 = Outcome.blocked <;> simp [h]

/-- Claim C8 counterexample: no finite connect timeout is configured on
the upstream socket — there is no value t with the socket's timeout equal
to t; `handle_client` dials with the library default of None. -/
theorem c8_counterexample :
    ¬ ∃ t : Nat, newRemoteSocket.timeout = some t := by
  rintro ⟨t, ht⟩
  simp [newRemoteSocket] at ht

/-- Claim C8 (amended): the upstream dial is issued on a socket whose
timeout is the default None: no application-level connect timeout of any
finite value is configured, and the dial blocks with no bound set by the
program (only the operating system's own connect behaviour limits it). -/
theorem c8_amended : newRemoteSocket.timeout = none := rfl

/-- Claim C9: the result served for position i of the accepted-session
list — including the bytes written to upstream connection i — is a
function only of session i: two runs whose session lists agree at i
produce the same result at i, so client i's bytes never appear on upstream
connection j for i different from j. -/
theorem c9_no_crosstalk (ss tt : List Session) (i : Nat)
    (h : ss[i]? = tt[i]?) :
    (serveAll ss)[i]? = (serveAll tt)[i]? ∧
    (serveAll ss)[i]? = (ss[i]?).map handle_client := by
  constructor
  · simp [serveAll, List.getElem?_map, h]
  · simp [serveAll, List.getElem?_map]

/-- Witness for C9: two session lists that agree at position 0 but differ
at position 1 produce the same upstream-0 result. -/
theorem c9_no_crosstalk_witness :
    ([⟨true, cleanStream [[1]], []⟩, ⟨true, cleanStream [[2]], []⟩]
        : List Session)[0]?
      = ([⟨true, cleanStream [[1]], []⟩, ⟨true, cleanStream [[3]], []⟩]
        : List Session)[0]? ∧
    (serveAll [⟨true, cleanStream [[1]], []⟩, ⟨true, cleanStream [[2]], []⟩])[0]?
      = (serveAll
          [⟨true, cleanStream [[1]], []⟩, ⟨true, cleanStream [[3]], []⟩])[0]? := by
  refine ⟨by decide, ?_⟩
  exact (c9_no_crosstalk
    [⟨true, cleanStream [[1]], []⟩, ⟨true, cleanStream [[2]], []⟩]
    [⟨true, cleanStream [[1]], []⟩, ⟨true, cleanStream [[3]], []⟩]
    0 (by decide)).1

/-- Claim C10: when the upstream dial raises, `handle_client` closes only
the client socket on its error path — the client socket is closed exactly
once, the remote socket object, although already created before the failed
connect, is closed zero times and is left dangling. -/
theorem c10_dial_error_leaks_remote (ce re : List SockEvent) :
    (handle_client ⟨false, ce, re⟩).clientCloses = 1 ∧
    (handle_client ⟨false, ce, re⟩).remoteCloses = 0 ∧
    (handle_client ⟨false, ce, re⟩).remoteCreated = true := by
  unfold handle_client
  simp

end TcpProxy
